import Mathlib

/-!
Verification of the LightLora MicroPython driver stack (LightLora/lorautil.py,
LightLora/sx127x.py, LightLora/spicontrol.py) against its natural-language
specification.  The definitions below are a shallow embedding of the pieces of
the source that the checked properties touch: the TX-side FIFO state mutated by
`SX127x.write`, the frame construction performed by `LoraUtil.send_packet`, the
receive-callback parsing of `LoraUtil._do_receive`, the transmit-completion
busy-poll, the bandwidth/spreading-factor register setters, and the
lock/operation traces of the two transmit paths.
-/

namespace LightLora

/-- A sequence of byte values, as held in the chip FIFO or a Python bytearray.
Elements are Nat; where the source guarantees byte range (bytearray elements)
the theorems carry the bound explicitly. -/
abbrev Bytes := List Nat

/-- Constant MAX_PKT_LENGTH = 255 (sx127x.py line 77). -/
def MAX_PKT_LENGTH : Nat := 255

/-- Constant FifoTxBaseAddr = 0x00 (sx127x.py line 32). -/
def FifoTxBaseAddr : Nat := 0

/-- Register number REG_DETECTION_OPTIMIZE = 0x31 (sx127x.py line 51). -/
def REG_DETECTION_OPTIMIZE : Nat := 0x31

/-- Register number REG_DETECTION_THRESHOLD = 0x37 (sx127x.py line 52). -/
def REG_DETECTION_THRESHOLD : Nat := 0x37

/-- Register number REG_MODEM_CONFIG_2 = 0x1e (sx127x.py line 44). -/
def REG_MODEM_CONFIG_2 : Nat := 0x1e

/-- The transmit-side chip state that `SX127x.write` reads and mutates after a
`beginPacket`: the REG_PAYLOAD_LENGTH register and the bytes pushed into the
FIFO since the write pointer was reset to FifoTxBaseAddr. -/
structure TxState where
  payloadLength : Nat
  fifo : Bytes
  deriving DecidableEq, Repr

/-- `SX127x.beginPacket` (sx127x.py lines 152-157): resets the FIFO address
pointer to FifoTxBaseAddr and REG_PAYLOAD_LENGTH to 0, so the TX state starts
empty. -/
def SX127x.beginPacket : TxState :=
  { payloadLength := 0, fifo := [] }

/-- `SX127x.write` (sx127x.py lines 184-194): reads REG_PAYLOAD_LENGTH, caps
the requested size at `MAX_PKT_LENGTH - FifoTxBaseAddr - currentLength`, pushes
that many buffer bytes into the FIFO, adds the count to REG_PAYLOAD_LENGTH and
returns it.  (Nat subtraction truncates at 0; the register value never exceeds
255 in the states this development uses, where Python arithmetic agrees.) -/
def SX127x.write (st : TxState) (buffer : Bytes) : TxState × Nat :=
  let currentLength := st.payloadLength
  let size := min buffer.length (MAX_PKT_LENGTH - FifoTxBaseAddr - currentLength)
  ({ payloadLength := currentLength + size, fifo := st.fifo ++ buffer.take size }, size)

/-- Python `bytearray([value])`: a one-byte array, raising ValueError unless
the value is in 0..255.  The failure is modelled as `none`. -/
def bytearray1 (value : Nat) : Option Bytes :=
  if value < 256 then some [value] else none

/-- `LoraUtil.write_int` (lorautil.py lines 66-68): wraps the value in a
one-byte bytearray and hands it to `SX127x.write`; the returned count is
discarded.  `none` when the bytearray construction raises. -/
def LoraUtil.write_int (value : Nat) (st : TxState) : Option TxState :=
  (bytearray1 value).map (fun b => (SX127x.write st b).1)

/-- The header phase of `LoraUtil.send_packet` (lorautil.py lines 75-79):
beginPacket followed by the four one-byte writes src, dst, incremented line
counter lc2, payload length.  `none` as soon as one write_int raises. -/
def sendHeader (lc2 src dst paylen : Nat) : Option TxState :=
  (((LoraUtil.write_int src SX127x.beginPacket).bind
      (LoraUtil.write_int dst)).bind
      (LoraUtil.write_int lc2)).bind
      (LoraUtil.write_int paylen)

/-- The frame-construction phase of `LoraUtil.send_packet` (lorautil.py lines
70-81): the line counter is incremented first (line 73), then the header bytes
and the payload are written.  Returns the new line counter together with, on
success, the final TX state and the byte count returned by the payload write
(line 80); the `except` clause of send_packet turns a raise into a printed
message, modelled by `none`. -/
def send_packet_build (lc src dst : Nat) (payload : Bytes) :
    Nat × Option (TxState × Nat) :=
  (lc + 1, (sendHeader (lc + 1) src dst payload.length).map
    (fun st => SX127x.write st payload))

/-- `LoraPacket` (lorautil.py lines 8-16) as filled in by `_do_receive`.  The
source stores snr as raw register value times 0.25 (a float); here the raw
quarter-dB register value is carried, which the multiplication by the fixed
factor 0.25 determines bijectively. -/
structure LoraPacket where
  src_address : Nat
  dst_address : Nat
  src_line_count : Nat
  pay_length : Nat
  msg : Bytes
  rssi : Int
  snr : Nat
  deriving DecidableEq, Repr

/-- `LoraUtil._do_receive` (lorautil.py lines 47-59), as a function from the
previous pending-packet slot and the raw payload to the new slot.  Line 50
sets `self.packet = None` before any validation, so the old slot never
survives; a buffer of length > 4 is parsed positionally, anything else leaves
the cleared slot.  `rssi` and `snr` stand for the values `sx12.packetRssi()`
and the raw SNR register deliver at that moment. -/
def LoraUtil.do_receive (_oldPacket : Option LoraPacket) (pay : Bytes)
    (rssi : Int) (snr : Nat) : Option LoraPacket :=
  let packet : Option LoraPacket := none
  if 4 < pay.length then
    some { src_address := pay.getD 0 0
           dst_address := pay.getD 1 0
           src_line_count := pay.getD 2 0
           pay_length := pay.getD 3 0
           msg := pay.drop 4
           rssi := rssi
           snr := snr }
  else packet

/-- `LoraUtil.is_packet_available` (lorautil.py lines 91-93):
`bool(self.packet)` — None is falsy, a LoraPacket instance truthy. -/
def LoraUtil.is_packet_available (packet : Option LoraPacket) : Bool :=
  packet.isSome

/-- `LoraUtil.read_packet` (lorautil.py lines 95-99): returns the current slot
and clears it. -/
def LoraUtil.read_packet (packet : Option LoraPacket) :
    Option LoraPacket × Option LoraPacket :=
  (packet, none)

/-- The completion busy-poll of `LoraUtil.send_packet` (lorautil.py lines
82-85): `slt = 0; while (not self.done_transmit) and (slt < 50):
sleep_ms(100); slt += 1`.  `done n` is the value the flag has when the loop
condition is evaluated with `slt = n` (the flag is set asynchronously by the
transmit interrupt).  Returns the final value of `slt`; each completed
iteration is one 100 ms sleep. -/
def txWait (done : Nat → Bool) (slt : Nat) : Nat :=
  if h : done slt = false ∧ slt < 50 then txWait done (slt + 1) else slt
termination_by 50 - slt
decreasing_by
  omega

/-- The timeout report of `LoraUtil.send_packet` (lorautil.py lines 86-87):
after the loop, `if slt == 50: print("Transmit timeout")`. -/
def txTimeoutReported (done : Nat → Bool) : Bool :=
  txWait done 0 == 50

/-- `SX127x.packetRssi` (sx127x.py lines 224-225) as a function of the
configured frequency (`self._frequency`, Hz) and the raw REG_PKT_RSSI_VALUE
register byte: `raw - (164 if frequency < 868E6 else 157)`. -/
def SX127x.packetRssi (frequency rawRssi : Nat) : Int :=
  (rawRssi : Int) - (if frequency < 868000000 then 164 else 157)

/-- The nine bandwidth bins of `setSignalBandwidth` (sx127x.py line 263), in
Hz: (7.8E3, 10.4E3, 15.6E3, 20.8E3, 31.25E3, 41.7E3, 62.5E3, 125E3, 250E3). -/
def bwBins : List Nat := [7800, 10400, 15600, 20800, 31250, 41700, 62500, 125000, 250000]

/-- The scanning loop of `setSignalBandwidth` (sx127x.py lines 264-268):
`bw = 9`, then the first index whose bin is ≥ the request replaces it. -/
def bwCodeAux (sbw : Nat) : List Nat → Nat → Nat
  | [], _ => 9
  | b :: rest, i => if sbw ≤ b then i else bwCodeAux sbw rest (i + 1)

/-- The bandwidth code `setSignalBandwidth` computes for a requested value. -/
def bwCode (sbw : Nat) : Nat :=
  bwCodeAux sbw bwBins 0

/-- The value `setSignalBandwidth` (sx127x.py line 269) writes to
REG_MODEM_CONFIG_1, given that register's current value:
`(mc1 & 0x0f) | (bw << 4)`. -/
def setSignalBandwidth_mc1 (mc1 sbw : Nat) : Nat :=
  (mc1 &&& 0x0f) ||| (bwCode sbw <<< 4)

/-- `SX127x.setSpreadingFactor` (sx127x.py lines 256-260): the ordered list of
(register, value) writes it performs, given the current value `mc2` of
REG_MODEM_CONFIG_2 that its read-modify-write observes.  The argument is first
clamped with `sf = min(max(sf, 6), 12)`; it is an Int because Python callers
may pass any integer. -/
def setSpreadingFactor_writes (mc2 : Nat) (sf : Int) : List (Nat × Nat) :=
  let sfc := min (max sf 6) 12
  [(REG_DETECTION_OPTIMIZE, if sfc = 6 then 0xc5 else 0xc3),
   (REG_DETECTION_THRESHOLD, if sfc = 6 then 0x0c else 0x0a),
   (REG_MODEM_CONFIG_2, (mc2 &&& 0x0f) ||| ((sfc.toNat <<< 4) &&& 0xf0))]

/-- Events relevant to the locking discipline of the two transmit paths: lock
transitions and the radio operations of the transmit-setup sequence. -/
inductive LoraAction where
  | lockAcquire
  | lockRelease
  | beginPacket
  | fifoWrite
  | endPacket
  deriving DecidableEq, Repr

/-- Event trace of `SX127x.println` (sx127x.py lines 211-216), in source
order: acquire_lock(True); beginPacket; write; endPacket; acquire_lock(False). -/
def println_trace : List LoraAction :=
  [.lockAcquire, .beginPacket, .fifoWrite, .endPacket, .lockRelease]

/-- Event trace of `LoraUtil.send_packet` (lorautil.py lines 70-89), in source
order: beginPacket; four write_int calls; the payload write; endPacket.  The
body of send_packet contains no call to acquire_lock or to any other lock
primitive. -/
def send_packet_trace : List LoraAction :=
  [.beginPacket, .fifoWrite, .fifoWrite, .fifoWrite, .fifoWrite, .fifoWrite,
   .endPacket]

/-- Decides whether every radio operation in the trace happens while the lock
depth (acquires minus releases so far, starting from d) is positive. -/
def radioOpsLocked : List LoraAction → Int → Bool
  | [], _ => true
  | .lockAcquire :: rest, d => radioOpsLocked rest (d + 1)
  | .lockRelease :: rest, d => radioOpsLocked rest (d - 1)
  | _ :: rest, d => decide (0 < d) && radioOpsLocked rest d

end LightLora

namespace LightLora

/-- Helper: explicit value of the frame construction when all four header
bytes fit in a byte and the payload fits the FIFO capacity.  The FIFO holds
the four header bytes followed by the whole payload, REG_PAYLOAD_LENGTH is
4 + |payload|, and the payload write returned |payload|. -/
theorem send_packet_build_eq (lc src dst : Nat) (payload : Bytes)
    (hsrc : src < 256) (hdst : dst < 256) (hlc : lc + 1 < 256)
    (hlen : payload.length ≤ 251) :
    (send_packet_build lc src dst payload).2 =
      some (⟨4 + payload.length, src :: dst :: (lc + 1) :: payload.length :: payload⟩,
        payload.length) := by
  have hplen : payload.length < 256 := by omega
  have hmin : min payload.length 251 = payload.length := by omega
  simp [send_packet_build, sendHeader, LoraUtil.write_int, bytearray1,
    SX127x.beginPacket, SX127x.write, hsrc, hdst, hlc, hplen, hmin,
    MAX_PKT_LENGTH, FifoTxBaseAddr, Nat.min_def, List.take_length]
  split_ifs
  omega

/-- Helper: the receive callback on a frame of four header bytes followed by a
nonempty body parses the header positionally and takes the rest as message. -/
theorem do_receive_cons (old : Option LoraPacket) (src dst seq len : Nat)
    (payload : Bytes) (rssi : Int) (snr : Nat) (h : 1 ≤ payload.length) :
    LoraUtil.do_receive old (src :: dst :: seq :: len :: payload) rssi snr =
      some { src_address := src, dst_address := dst, src_line_count := seq,
             pay_length := len, msg := payload, rssi := rssi, snr := snr } := by
  have hlt : 4 < (src :: dst :: seq :: len :: payload).length := by
    simp
    omega
  simp [LoraUtil.do_receive, hlt, List.getD]
  exact List.length_pos.mp (by omega)

/-- Helper: the receive callback leaves the slot empty on any buffer of at
most four bytes, whatever was pending before. -/
theorem do_receive_short (old : Option LoraPacket) (pay : Bytes)
    (rssi : Int) (snr : Nat) (h : pay.length ≤ 4) :
    LoraUtil.do_receive old pay rssi snr = none := by
  have hlt : ¬ 4 < pay.length := by omega
  simp [LoraUtil.do_receive, hlt]

end LightLora

namespace LightLora

/-- C1 counterexample: the claim admits payload length 0, but an empty payload
yields the 4-byte frame [src, dst, 1, 0], which `_do_receive` rejects
(length is not > 4), so no ReceivedPacket with the input fields is produced. -/
theorem C1_counterexample :
    (send_packet_build 0 1 2 []).2 = some (⟨4, [1, 2, 1, 0]⟩, 0) ∧
    LoraUtil.do_receive none [1, 2, 1, 0] 0 0 = none := by
  constructor
  · rfl
  · rfl

/-- C1 (amended): for every payload of length 1..251, every source and
destination byte, and a sender whose incremented counter still fits one byte,
the frame built by send_packet and handed to the receive callback yields a
packet whose src_address, dst_address and payload bytes equal the inputs and
whose sequence number is the pre-send counter plus one. -/
theorem C1_roundtrip (lc src dst : Nat) (payload : Bytes)
    (old : Option LoraPacket) (rssi : Int) (snr : Nat)
    (hsrc : src < 256) (hdst : dst < 256) (hlc : lc + 1 < 256)
    (hlen1 : 1 ≤ payload.length) (hlen : payload.length ≤ 251) :
    ∃ st : TxState,
      (send_packet_build lc src dst payload).2 = some (st, payload.length) ∧
      LoraUtil.do_receive old st.fifo rssi snr =
        some { src_address := src, dst_address := dst, src_line_count := lc + 1,
               pay_length := payload.length, msg := payload,
               rssi := rssi, snr := snr } := by
  refine ⟨⟨4 + payload.length, src :: dst :: (lc + 1) :: payload.length :: payload⟩,
    send_packet_build_eq lc src dst payload hsrc hdst hlc hlen, ?_⟩
  exact do_receive_cons old src dst (lc + 1) payload.length payload rssi snr hlen1

/-- C1 witness: concrete instance at lc = 0, src = 1, dst = 2, payload = [7]. -/
theorem C1_roundtrip_witness :
    ∃ st : TxState,
      (send_packet_build 0 1 2 [7]).2 = some (st, 1) ∧
      LoraUtil.do_receive none st.fifo 0 0 =
        some { src_address := 1, dst_address := 2, src_line_count := 1,
               pay_length := 1, msg := [7], rssi := 0, snr := 0 } :=
  C1_roundtrip 0 1 2 [7] none 0 0 (by decide) (by decide) (by decide)
    (by decide) (by decide)

set_option maxRecDepth 4096 in
/-- C2 counterexample: a requested payload of 252 bytes (more than the FIFO
capacity 255 - 4 left after the header) makes send_packet record 252 in header
byte 3 while the payload write only transfers 251 bytes. -/
theorem C2_counterexample :
    ((send_packet_build 0 1 2 (List.replicate 252 7)).2.map
      (fun r => (r.1.fifo.getD 3 0, r.2))) = some (252, 251) := by
  rfl

/-- C2 (amended): whenever the requested payload length is at most 251 (and
the header bytes fit one byte each), header byte 3 equals the byte count the
subsequent payload write actually transfers; for requests of 252..255 bytes
the header byte exceeds the transferred count (see the counterexample), and
beyond 255 the header write itself fails. -/
theorem C2_header_matches (lc src dst : Nat) (payload : Bytes)
    (hsrc : src < 256) (hdst : dst < 256) (hlc : lc + 1 < 256)
    (hlen : payload.length ≤ 251) :
    ∃ r : TxState × Nat,
      (send_packet_build lc src dst payload).2 = some r ∧
      r.1.fifo.getD 3 0 = payload.length ∧ r.2 = payload.length := by
  refine ⟨(⟨4 + payload.length, src :: dst :: (lc + 1) :: payload.length :: payload⟩,
    payload.length), send_packet_build_eq lc src dst payload hsrc hdst hlc hlen, ?_, rfl⟩
  rfl

/-- C2 witness: concrete instance at lc = 0, src = 1, dst = 2, payload = [9, 9]. -/
theorem C2_header_matches_witness :
    ∃ r : TxState × Nat,
      (send_packet_build 0 1 2 [9, 9]).2 = some r ∧
      r.1.fifo.getD 3 0 = 2 ∧ r.2 = 2 :=
  C2_header_matches 0 1 2 [9, 9] (by decide) (by decide) (by decide) (by decide)

/-- C3: the line counter of send_packet does not wrap at 256.  On the 256th
call (counter 255 before the call, src 0xff, dst 0x41 as in the example app)
the counter becomes 256 — outside 0..255 — and the header write of the counter
byte raises ValueError in bytearray([256]), aborting the send instead of
wrapping the counter to 0. -/
theorem C3_counter_overflow :
    (send_packet_build 255 255 65 []).1 = 256 ∧
    (send_packet_build 255 255 65 []).2 = none := by
  constructor
  · rfl
  · rfl

end LightLora

namespace LightLora

/-- C4 counterexample: in the send_packet path the entire
beginPacket/write/endPacket sequence runs at lock depth 0, and the path never
performs a lock acquisition at all — the claim that it holds the binary lock
across the transmit-setup sequence is false. -/
theorem C4_counterexample :
    radioOpsLocked send_packet_trace 0 = false ∧
    LoraAction.lockAcquire ∉ send_packet_trace := by
  constructor
  · rfl
  · decide

/-- C4 (amended): only the println path is lock-protected: its trace starts
with the acquisition, every radio operation in it runs at positive lock depth,
and the release is the last event (after endPacket); the send_packet path
contains no lock acquisition or release at all. -/
theorem C4_println_locked :
    radioOpsLocked println_trace 0 = true ∧
    println_trace.head? = some .lockAcquire ∧
    println_trace.getLast? = some .lockRelease ∧
    LoraAction.lockAcquire ∉ send_packet_trace ∧
    LoraAction.lockRelease ∉ send_packet_trace := by
  refine ⟨rfl, rfl, rfl, ?_, ?_⟩ <;> decide

/-- Helper: extracting the upper nibble written by a masked
`(x & 0x0f) | (code << 4)` register update recovers the code. -/
theorem nibble_or_shift (a b : Nat) : ((a &&& 15) ||| (b <<< 4)) >>> 4 = b := by
  apply Nat.eq_of_testBit_eq
  intro i
  have hpow : (15 : Nat) < 2 ^ (4 + i) := by
    calc (15 : Nat) < 2 ^ 4 := by norm_num
    _ ≤ 2 ^ (4 + i) := Nat.pow_le_pow_right (by norm_num) (by omega)
  have h15 : Nat.testBit 15 (4 + i) = false := Nat.testBit_lt_two_pow hpow
  simp [Nat.testBit_shiftRight, Nat.testBit_or, Nat.testBit_and,
    Nat.testBit_shiftLeft, h15, Nat.le_add_right, Nat.add_sub_cancel_left]

/-- Helper: for requests at most the largest bin, the computed bandwidth code
is the index of the smallest bin that is at least the request. -/
theorem bwCode_le (sbw : Nat) (h : sbw ≤ 250000) :
    bwCode sbw < 9 ∧ sbw ≤ bwBins.getD (bwCode sbw) 0 ∧
    ∀ j, j < bwCode sbw → bwBins.getD j 0 < sbw := by
  simp only [bwCode, bwBins, bwCodeAux]
  split_ifs
  all_goals refine ⟨by norm_num, by simp [List.getD]; omega, ?_⟩
  all_goals intro j hj
  all_goals interval_cases j
  all_goals simp [List.getD]
  all_goals omega

/-- Helper: for requests above every bin the loop default 9 survives. -/
theorem bwCode_gt (sbw : Nat) (h : 250000 < sbw) : bwCode sbw = 9 := by
  simp only [bwCode, bwBins, bwCodeAux]
  split_ifs <;> omega

/-- C5 (amended): for a request at most 250000 Hz, the value written to
REG_MODEM_CONFIG_1 carries in its upper four bits the index of the smallest of
the nine bins that is at least the request; for a request above all nine bins
it carries 9 — one past the index 8 of the largest bin — not the index of the
largest bin. -/
theorem C5_bandwidth (mc1 sbw : Nat) :
    (sbw ≤ 250000 →
      setSignalBandwidth_mc1 mc1 sbw >>> 4 < 9 ∧
      sbw ≤ bwBins.getD (setSignalBandwidth_mc1 mc1 sbw >>> 4) 0 ∧
      ∀ j, j < setSignalBandwidth_mc1 mc1 sbw >>> 4 → bwBins.getD j 0 < sbw) ∧
    (250000 < sbw → setSignalBandwidth_mc1 mc1 sbw >>> 4 = 9) := by
  have hnib : setSignalBandwidth_mc1 mc1 sbw >>> 4 = bwCode sbw :=
    nibble_or_shift mc1 (bwCode sbw)
  rw [hnib]
  exact ⟨bwCode_le sbw, bwCode_gt sbw⟩

/-- C5 witness: concrete instances at current register value 0x72, with a
request inside the bins (125000) and one above all bins (300000). -/
theorem C5_bandwidth_witness :
    (setSignalBandwidth_mc1 0x72 125000 >>> 4 < 9 ∧
      125000 ≤ bwBins.getD (setSignalBandwidth_mc1 0x72 125000 >>> 4) 0 ∧
      ∀ j, j < setSignalBandwidth_mc1 0x72 125000 >>> 4 → bwBins.getD j 0 < 125000) ∧
    setSignalBandwidth_mc1 0x72 300000 >>> 4 = 9 :=
  ⟨(C5_bandwidth 0x72 125000).1 (by decide), (C5_bandwidth 0x72 300000).2 (by decide)⟩

/-- C5 counterexample: for the request 300000, above all nine bins, the upper
nibble written is 9, which is not the index 8 = bwBins.length - 1 of the
largest bin — the claim's fallback clause is false. -/
theorem C5_counterexample :
    setSignalBandwidth_mc1 0 300000 >>> 4 = 9 ∧ bwBins.length - 1 = 8 := by
  constructor
  · rfl
  · rfl

end LightLora

namespace LightLora

/-- Helper: if the done flag stays false, the poll loop counts all the way to
50 from any starting point at most 50. -/
theorem txWait_never (done : Nat → Bool) (h : ∀ n, done n = false) :
    ∀ fuel slt, slt + fuel = 50 → txWait done slt = 50 := by
  intro fuel
  induction fuel with
  | zero =>
    intro slt hs
    rw [txWait]
    rw [dif_neg (fun hc => absurd hc.2 (by omega))]
    omega
  | succ k ih =>
    intro slt hs
    rw [txWait]
    rw [dif_pos ⟨h slt, by omega⟩]
    exact ih (slt + 1) (by omega)

/-- C6: when the done-transmit flag never becomes true, the completion wait of
send_packet performs exactly 50 polling iterations (the final slt is 50, one
100 ms sleep each), the timeout report fires, and — txWait being a total
function — the call returns normally. -/
theorem C6_timeout (done : Nat → Bool) (h : ∀ n, done n = false) :
    txWait done 0 = 50 ∧ txTimeoutReported done = true := by
  have h50 := txWait_never done h 50 0 (by omega)
  exact ⟨h50, by simp [txTimeoutReported, h50]⟩

/-- C6 witness: the constantly-false flag. -/
theorem C6_timeout_witness :
    txWait (fun _ => false) 0 = 50 ∧ txTimeoutReported (fun _ => false) = true :=
  C6_timeout (fun _ => false) (fun _ => rfl)

/-- C7: a raw received buffer of at most 4 bytes (the empty buffer included)
produces no packet: the receive callback leaves the slot empty, read_packet
then yields nothing, and is_packet_available is false; do_receive is a total
function, so no error reaches the caller. -/
theorem C7_short_discarded (old : Option LoraPacket) (pay : Bytes)
    (rssi : Int) (snr : Nat) (h : pay.length ≤ 4) :
    LoraUtil.do_receive old pay rssi snr = none ∧
    (LoraUtil.read_packet (LoraUtil.do_receive old pay rssi snr)).1 = none ∧
    LoraUtil.is_packet_available (LoraUtil.do_receive old pay rssi snr) = false := by
  have hd := do_receive_short old pay rssi snr h
  exact ⟨hd, by simp [LoraUtil.read_packet, hd],
    by simp [LoraUtil.is_packet_available, hd]⟩

/-- C7 witness: the empty buffer with an empty slot. -/
theorem C7_short_discarded_witness :
    LoraUtil.do_receive none [] 0 0 = none ∧
    (LoraUtil.read_packet (LoraUtil.do_receive none [] 0 0)).1 = none ∧
    LoraUtil.is_packet_available (LoraUtil.do_receive none [] 0 0) = false :=
  C7_short_discarded none [] 0 0 (by decide)

/-- C8: setSpreadingFactor clamps to 6..12 before deciding any register
value: every x below 6 produces exactly the write list of 6, and every x above
12 exactly the write list of 12, for any current REG_MODEM_CONFIG_2 value. -/
theorem C8_clamping (x : Int) (mc2 : Nat) :
    (x < 6 → setSpreadingFactor_writes mc2 x = setSpreadingFactor_writes mc2 6) ∧
    (12 < x → setSpreadingFactor_writes mc2 x = setSpreadingFactor_writes mc2 12) := by
  constructor
  · intro hx
    have hc : min (max x 6) 12 = min (max (6 : Int) 6) 12 := by omega
    simp only [setSpreadingFactor_writes, hc]
  · intro hx
    have hc : min (max x 6) 12 = min (max (12 : Int) 6) 12 := by omega
    simp only [setSpreadingFactor_writes, hc]

/-- C8 witness: concrete instances x = 3 and x = 20 at register value 0x74. -/
theorem C8_clamping_witness :
    setSpreadingFactor_writes 0x74 3 = setSpreadingFactor_writes 0x74 6 ∧
    setSpreadingFactor_writes 0x74 20 = setSpreadingFactor_writes 0x74 12 :=
  ⟨(C8_clamping 3 0x74).1 (by decide), (C8_clamping 20 0x74).2 (by decide)⟩

/-- C9: packetRssi subtracts 164 from the raw register value when the
configured frequency is below 868 MHz and 157 otherwise. -/
theorem C9_rssi (frequency rawRssi : Nat) :
    (frequency < 868000000 →
      SX127x.packetRssi frequency rawRssi = (rawRssi : Int) - 164) ∧
    (868000000 ≤ frequency →
      SX127x.packetRssi frequency rawRssi = (rawRssi : Int) - 157) := by
  constructor
  · intro h
    simp [SX127x.packetRssi, h]
  · intro h
    have hn : ¬ frequency < 868000000 := by omega
    simp [SX127x.packetRssi, hn]

/-- C9 witness: raw value 90 at 433 MHz and at 915 MHz. -/
theorem C9_rssi_witness :
    SX127x.packetRssi 433000000 90 = (90 : Int) - 164 ∧
    SX127x.packetRssi 915000000 90 = (90 : Int) - 157 :=
  ⟨(C9_rssi 433000000 90).1 (by decide), (C9_rssi 915000000 90).2 (by decide)⟩

/-- C10: the receive callback clears the pending slot before validating, so
after a callback with a buffer of at most 4 bytes, is_packet_available is
false even though an unread packet was pending beforehand — the prior packet
is lost, not preserved. -/
theorem C10_overwrite (prev : LoraPacket) (pay : Bytes) (rssi : Int) (snr : Nat)
    (h : pay.length ≤ 4) :
    LoraUtil.is_packet_available (some prev) = true ∧
    LoraUtil.do_receive (some prev) pay rssi snr = none ∧
    LoraUtil.is_packet_available (LoraUtil.do_receive (some prev) pay rssi snr)
      = false := by
  have hd := do_receive_short (some prev) pay rssi snr h
  exact ⟨rfl, hd, by simp [LoraUtil.is_packet_available, hd]⟩

/-- C10 witness: a concrete pending packet wiped by a 3-byte buffer. -/
theorem C10_overwrite_witness :
    LoraUtil.is_packet_available (some ⟨1, 2, 3, 1, [5], -100, 4⟩) = true ∧
    LoraUtil.do_receive (some ⟨1, 2, 3, 1, [5], -100, 4⟩) [9, 9, 9] 0 0 = none ∧
    LoraUtil.is_packet_available
      (LoraUtil.do_receive (some ⟨1, 2, 3, 1, [5], -100, 4⟩) [9, 9, 9] 0 0)
      = false :=
  C10_overwrite ⟨1, 2, 3, 1, [5], -100, 4⟩ [9, 9, 9] 0 0 (by decide)

end LightLora
